import Mathlib

/-!
Shallow embedding of the ComputeHorde executor job-execution engine
(src/executor/.../run_executor.py) together with the miner-side payload
validator (src/miner/.../layer_utils.py), and proofs of the spec claims
about them.  Python exceptions are modelled with Except, the asyncio
one-shot futures with Option-valued gates, and the environment of each
operation (subprocess results, HTTP chunks, upload outcomes) with explicit
environment structures, so every definition is executable.
-/

/-- Constant MAX_RESULT_SIZE_IN_RESPONSE from run_executor.py. -/
def MAX_RESULT_SIZE_IN_RESPONSE : Nat := 1000

/-- Constant TRUNCATED_RESPONSE_PREFIX_LEN from run_executor.py
(renamed head to satisfy naming constraints of this development). -/
def TRUNCATED_RESPONSE_HEAD_LEN : Nat := 100

/-- Constant TRUNCATED_RESPONSE_SUFFIX_LEN from run_executor.py. -/
def TRUNCATED_RESPONSE_TAIL_LEN : Nat := 100

/-- Python string slice v[-n:]: the last n characters (whole string when
the string is shorter than n). -/
def pySliceLast (s : String) (n : Nat) : String :=
  s.drop (s.length - n)

/-- Function truncate from run_executor.py: strings longer than
MAX_RESULT_SIZE_IN_RESPONSE are reported as a 100-character head, the
elision marker, and a 100-character tail. -/
def truncate (v : String) : String :=
  if v.length > MAX_RESULT_SIZE_IN_RESPONSE then
    v.take TRUNCATED_RESPONSE_HEAD_LEN ++ " ... " ++ pySliceLast v TRUNCATED_RESPONSE_TAIL_LEN
  else v

/-- Modelled from the spec: the em_protocol message module is not under
src/.  A Volume is a tagged union; the tag is carried as a string so that
the defensive unknown-tag branch of the stager is reachable, with known
values inline and zip_url. -/
structure Volume where
  volume_type : String
  contents : String
deriving DecidableEq, Repr

/-- Modelled from the spec: the em_protocol OutputUpload descriptor
(destination URL and form fields) is not under src/; only its presence
matters to the executor model. -/
structure OutputUpload where
  url : String
deriving DecidableEq, Repr

/-- Modelled from the spec: machine-capability report; contents opaque. -/
structure MachineSpecs where
  specs : String
deriving DecidableEq, Repr

/-- Modelled from the spec: V0InitialJobRequest of em_protocol (not under
src/) carries the job id, an optional base image to pre-pull and the
wall-clock timeout bound. -/
structure V0InitialJobRequest where
  job_uuid : String
  base_docker_image_name : Option String
  timeout_seconds : Option Nat
deriving DecidableEq, Repr

/-- Modelled from the spec: V0JobRequest of em_protocol (not under src/)
carries the fields the executor reads in run_job. -/
structure V0JobRequest where
  job_uuid : String
  docker_image_name : Option String
  raw_script : Option String
  docker_run_options_preset : String
  docker_run_cmd : List String
  volume : Volume
  output_upload : Option OutputUpload
deriving DecidableEq, Repr

/-- JobResult from run_executor.py. -/
structure JobResult where
  success : Bool
  exit_status : Option Int
  timeout : Bool
  stdout : String
  stderr : String
  specs : Option MachineSpecs := none
deriving DecidableEq, Repr

/-- JobError from run_executor.py: the job-level recoverable exception,
carrying a human-readable description. -/
structure JobError where
  description : String
deriving DecidableEq, Repr

/-- Messages the executor sends to the miner during the handshake; the
claims about the handshake only mention GenericError. -/
inductive SentMsg where
  | genericError (details : String)
deriving DecidableEq, Repr

/-- State of the MinerClient handshake gates: the job_uuid attribute and
the two one-shot futures initial_msg and full_payload, each modelled as an
Option that is none while the future is pending. -/
structure HandshakeState where
  job_uuid : Option String
  initial_msg : Option V0InitialJobRequest
  full_payload : Option V0JobRequest
deriving DecidableEq, Repr

/-- MinerClient state right after construction: no job id, both gates
pending. -/
def initialHandshakeState : HandshakeState :=
  { job_uuid := none, initial_msg := none, full_payload := none }

/-- MinerClient.handle_initial_job_request: under the initial_msg lock,
a filled gate means a duplicate, which is reported as a GenericError and
leaves the state unchanged; otherwise the job id is recorded and the gate
filled.  The send primitive deferred_send_model lives in the miner_client
base module, which is not under src/, and is modelled from the spec as
emitting the message to the peer. -/
def handle_initial_job_request (s : HandshakeState) (msg : V0InitialJobRequest) :
    HandshakeState × List SentMsg :=
  if s.initial_msg.isSome then
    (s, [SentMsg.genericError "Received duplicate initial job request"])
  else
    ({ s with job_uuid := some msg.job_uuid, initial_msg := some msg }, [])

/-- MinerClient.handle_job_request: under the full_payload lock, a payload
before the initial descriptor or a duplicate payload is reported as a
GenericError and dropped; otherwise the gate is filled. -/
def handle_job_request (s : HandshakeState) (msg : V0JobRequest) :
    HandshakeState × List SentMsg :=
  if s.initial_msg.isSome = false then
    (s, [SentMsg.genericError "Received job request before an initial job request"])
  else if s.full_payload.isSome then
    (s, [SentMsg.genericError "Received duplicate full job payload request"])
  else
    ({ s with full_payload := some msg }, [])

/-- An inbound handshake message, as dispatched by
MinerClient.handle_message. -/
inductive HandshakeMsg where
  | initial (m : V0InitialJobRequest)
  | payload (m : V0JobRequest)
deriving DecidableEq, Repr

/-- MinerClient.handle_message restricted to the two handshake kinds (any
other message type raises UnsupportedMessageReceived and never reaches the
gates). -/
def handle_message (s : HandshakeState) : HandshakeMsg → HandshakeState × List SentMsg
  | HandshakeMsg.initial m => handle_initial_job_request s m
  | HandshakeMsg.payload m => handle_job_request s m

/-- Folding a whole sequence of handshake messages through the gates, as
the message loop of one session does. -/
def runSession (s : HandshakeState) : List HandshakeMsg → HandshakeState
  | [] => s
  | m :: rest => runSession (handle_message s m).1 rest

/-- Outcome of the zip_url streaming download of JobRunner._unpack_volume:
the Python result (normal return or raised JobError), together with how
many body chunks were consumed from the HTTP stream and how many bytes
were written to the temporary download file. -/
structure DownloadOutcome where
  result : Except JobError Unit
  chunksRead : Nat
  bytesWritten : Nat
deriving Repr

/-- Body of the async-for loop over response.aiter_bytes in
JobRunner._unpack_volume: each chunk is received, added to bytes_received,
checked against 0 < VOLUME_MAX_SIZE_BYTES < bytes_received (raising
JobError on violation, so the offending chunk is never written and the
iteration stops), and otherwise written to the download file.  The chunk
list carries the byte count of each chunk. -/
def aiter_bytes_loop (cap : Int) (bytes_received : Nat) : List Nat → DownloadOutcome
  | [] => { result := Except.ok (), chunksRead := 0, bytesWritten := 0 }
  | c :: rest =>
    let received := bytes_received + c
    if 0 < cap ∧ cap < (received : Int) then
      { result := Except.error { description := "Input volume too large" },
        chunksRead := 1, bytesWritten := 0 }
    else
      let o := aiter_bytes_loop cap received rest
      { result := o.result, chunksRead := o.chunksRead + 1, bytesWritten := o.bytesWritten + c }

/-- The zip_url download of JobRunner._unpack_volume: when the response
declares a Content-Length, the cap 0 < VOLUME_MAX_SIZE_BYTES < length is
checked before any body chunk is read; then the body is streamed through
aiter_bytes_loop.  The cap is the settings value VOLUME_MAX_SIZE_BYTES
(settings are not under src/, so the cap is a parameter). -/
def download_zip_url (cap : Int) (content_length : Option Nat) (chunks : List Nat) :
    DownloadOutcome :=
  match content_length with
  | some n =>
    if 0 < cap ∧ cap < (n : Int) then
      { result := Except.error { description := "Input volume too large" },
        chunksRead := 0, bytesWritten := 0 }
    else aiter_bytes_loop cap 0 chunks
  | none => aiter_bytes_loop cap 0 chunks

/-- Sum of the sizes of the first k chunks of the stream. -/
def sumTake (chunks : List Nat) (k : Nat) : Nat :=
  (chunks.take k).sum

/-- Exceptions that can escape JobRunner._unpack_volume, as distinguished
by the except clauses of JobRunner.unpack_volume: JobError, TimeoutError,
NotImplementedError (from the unknown volume_type branch, an Exception
subclass in Python) and any other exception. -/
inductive StagingExc where
  | jobError (description : String)
  | timeoutExc
  | notImplementedExc (message : String)
  | otherExc
deriving DecidableEq, Repr

/-- Environment of one staging attempt: the download cap and HTTP stream
for the zip_url branch, and whether the local decode or zip extraction
raised (base64/zipfile faults, modelled as a flag because the archive
bytes are opaque here). -/
structure UnpackEnv where
  cap : Int
  content_length : Option Nat
  chunks : List Nat
  inlineExtractRaises : Bool
  zipExtractRaises : Bool
deriving Repr

/-- JobRunner._unpack_volume: dispatch on volume_type.  The inline branch
decodes and extracts in memory; the zip_url branch streams the download
under the size cap and then extracts; any other tag raises
NotImplementedError. -/
def unpack_volume_inner (volume : Volume) (env : UnpackEnv) : Except StagingExc Unit :=
  if volume.volume_type = "inline" then
    if env.inlineExtractRaises then Except.error StagingExc.otherExc else Except.ok ()
  else if volume.volume_type = "zip_url" then
    match (download_zip_url env.cap env.content_length env.chunks).result with
    | Except.error e => Except.error (StagingExc.jobError e.description)
    | Except.ok _ =>
      if env.zipExtractRaises then Except.error StagingExc.otherExc else Except.ok ()
  else
    Except.error (StagingExc.notImplementedExc ("Unsupported volume_type: " ++ volume.volume_type))

/-- JobRunner.unpack_volume: wraps _unpack_volume in wait_for with the
staging timeout and converts exceptions, in the order of its except
clauses: a JobError is re-raised, a TimeoutError (in particular expiry of
the wait_for timeout itself) becomes a JobError about the download taking
too long, and every other exception, NotImplementedError included, becomes
the generic unknown-error JobError. -/
def unpack_volume (stagingTimedOut : Bool) (inner : Except StagingExc Unit) :
    Except JobError Unit :=
  if stagingTimedOut then
    Except.error { description := "Input volume downloading took too long" }
  else
    match inner with
    | Except.ok _ => Except.ok ()
    | Except.error (StagingExc.jobError d) => Except.error { description := d }
    | Except.error StagingExc.timeoutExc =>
      Except.error { description := "Input volume downloading took too long" }
    | Except.error (StagingExc.notImplementedExc _) =>
      Except.error { description := "Unknown error happened while downloading input volume" }
    | Except.error StagingExc.otherExc =>
      Except.error { description := "Unknown error happened while downloading input volume" }

/-- RunConfigManager.preset_to_docker_run_args from run_executor.py. -/
def preset_to_docker_run_args (preset : String) : Except JobError (List String) :=
  if preset = "none" then Except.ok []
  else if preset = "nvidia_all" then Except.ok ["--runtime=nvidia", "--gpus", "all"]
  else Except.error { description := "Invalid preset: " ++ preset }

/-- Environment of one JobRunner.run_job call: the outcome of
unpack_volume, whether wait_for on process.communicate expired, the exit
code and the stdout/stderr the docker run process made available (on the
timeout path these are the reads performed after the kill), the contents
of specs.json when the job wrote one, and whether the requested output
upload raised OutputUploadFailed (with its description). -/
structure RunEnv where
  stagingResult : Except JobError Unit
  timedOut : Bool
  exitCode : Int
  runStdout : String
  runStderr : String
  specs : Option MachineSpecs
  uploadFailure : Option String
deriving Repr

/-- Observable side effects of one JobRunner.run_job call: whether the
docker run subprocess was launched, whether process.kill was invoked, and
the contents written to stdout.txt and stderr.txt in the output volume. -/
structure RunEffects where
  containerLaunched : Bool
  killed : Bool
  stdoutFile : Option String
  stderrFile : Option String
deriving DecidableEq, Repr

/-- JobRunner.run_job from run_executor.py: preset resolution and volume
unpacking run first and a JobError from either returns a failed JobResult
with the description as stdout; then the container runs.  On wait_for
expiry the process is killed, timeout is set, the exit status is None and
the partially available streams are read; otherwise the exit status is the
return code.  Full streams are written to the output files and truncated
for the response, success is defined as exit status 0, and a failed output
upload downgrades success and replaces stdout with the upload error
description and stderr with the empty string. -/
def runJob (jr : V0JobRequest) (env : RunEnv) : JobResult × RunEffects :=
  match preset_to_docker_run_args jr.docker_run_options_preset with
  | Except.error ex =>
    ({ success := false, exit_status := none, timeout := false,
       stdout := ex.description, stderr := "", specs := none },
     { containerLaunched := false, killed := false, stdoutFile := none, stderrFile := none })
  | Except.ok _ =>
    match env.stagingResult with
    | Except.error ex =>
      ({ success := false, exit_status := none, timeout := false,
         stdout := ex.description, stderr := "", specs := none },
       { containerLaunched := false, killed := false, stdoutFile := none, stderrFile := none })
    | Except.ok _ =>
      let timeout := env.timedOut
      let exit_status : Option Int := if env.timedOut then none else some env.exitCode
      let stdout_full := env.runStdout
      let stderr_full := env.runStderr
      let stdout := truncate stdout_full
      let stderr := truncate stderr_full
      let success : Bool := exit_status = some 0
      let effects : RunEffects :=
        { containerLaunched := true, killed := env.timedOut,
          stdoutFile := some stdout_full, stderrFile := some stderr_full }
      match jr.output_upload, env.uploadFailure with
      | some _, some desc =>
        ({ success := false, exit_status := exit_status, timeout := timeout,
           stdout := desc, stderr := "", specs := env.specs }, effects)
      | _, _ =>
        ({ success := success, exit_status := exit_status, timeout := timeout,
           stdout := stdout, stderr := stderr, specs := env.specs }, effects)

/-- Actions of Command._executor_loop visible to the peer and to the
workspace, in program order: protocol messages, workspace creation
(JobRunner construction makes the temporary directory), the cleanup call,
and a local-only fault raised by a failing cleanup. -/
inductive LoopAction where
  | sendFailedToPrepare
  | sendReady
  | sendSpecs
  | sendFinished (stdout stderr : String)
  | sendFailed (exit_status : Option Int) (timeout : Bool) (stdout stderr : String)
  | sendGenericError (details : String)
  | createWorkspace
  | clean
  | localFault (details : String)
deriving DecidableEq, Repr

/-- Terminal branch taken by one pass of Command._executor_loop: the CVE
probe can fail before the runner exists, prepare can raise JobError (pull
failure) or an unexpected exception, run_job or the result sends can raise
unexpectedly, or the loop completes with a JobResult. -/
inductive LoopBranch where
  | cveUnsafe
  | prepareJobError
  | prepareFault
  | runFault
  | completed (result : JobResult)
deriving DecidableEq, Repr

/-- MinerClient.send_finished: a machine-specs message precedes the
finished message when the result carries specs. -/
def sendFinishedActions (r : JobResult) : List LoopAction :=
  (if r.specs.isSome then [LoopAction.sendSpecs] else []) ++ [LoopAction.sendFinished r.stdout r.stderr]

/-- The finally block of _executor_loop: clean always runs; the code never
inspects its outcome and sends nothing afterwards, so a cleanup failure
surfaces only as a local fault after every peer message has gone out. -/
def cleanTail : Except String Unit → List LoopAction
  | Except.ok _ => [LoopAction.clean]
  | Except.error e => [LoopAction.clean, LoopAction.localFault e]

/-- Command._executor_loop from run_executor.py as the sequence of actions
of the branch taken: a failed CVE probe sends failed-to-prepare before any
workspace exists; every other branch creates the workspace, sends its
terminal message (failed-to-prepare on prepare JobError, the generic
unexpected-error report on an unhandled exception, finished or failed from
the JobResult) and then runs the cleanup from the finally block. -/
def executorLoop (branch : LoopBranch) (cleanResult : Except String Unit) : List LoopAction :=
  match branch with
  | LoopBranch.cveUnsafe => [LoopAction.sendFailedToPrepare]
  | LoopBranch.prepareJobError =>
    [LoopAction.createWorkspace, LoopAction.sendFailedToPrepare] ++ cleanTail cleanResult
  | LoopBranch.prepareFault =>
    [LoopAction.createWorkspace, LoopAction.sendGenericError "Unexpected error"] ++ cleanTail cleanResult
  | LoopBranch.runFault =>
    [LoopAction.createWorkspace, LoopAction.sendReady, LoopAction.sendGenericError "Unexpected error"]
      ++ cleanTail cleanResult
  | LoopBranch.completed r =>
    [LoopAction.createWorkspace, LoopAction.sendReady]
      ++ (if r.success then sendFinishedActions r
          else [LoopAction.sendFailed r.exit_status r.timeout r.stdout r.stderr])
      ++ cleanTail cleanResult

/-- Predicate for actions that send a message to the peer. -/
def isSend : LoopAction → Bool
  | LoopAction.sendFailedToPrepare => true
  | LoopAction.sendReady => true
  | LoopAction.sendSpecs => true
  | LoopAction.sendFinished _ _ => true
  | LoopAction.sendFailed _ _ _ _ => true
  | LoopAction.sendGenericError _ => true
  | LoopAction.createWorkspace => false
  | LoopAction.clean => false
  | LoopAction.localFault _ => false

/-- Predicate for the cleanup action. -/
def isClean : LoopAction → Bool
  | LoopAction.clean => true
  | _ => false

/-- Predicate for the workspace-creation action. -/
def isCreate : LoopAction → Bool
  | LoopAction.createWorkspace => true
  | _ => false

/-- Messages sent to the peer within a trace. -/
def sentMessages (tr : List LoopAction) : List LoopAction :=
  tr.filter isSend

/-- Number of peer messages that occur after the first cleanup action of a
trace. -/
def sendsAfterClean : List LoopAction → Nat
  | [] => 0
  | a :: rest => if isClean a then (sentMessages rest).length else sendsAfterClean rest

/-- True when the pattern occurs as a substring (the Python in operator on
strings, for nonempty patterns): splitting on the pattern yields at least
two pieces exactly when it occurs. -/
def containsSubstring (s pat : String) : Bool :=
  (s.splitOn pat).length ≥ 2

/-- Environment of one CVE-2022-0492 probe run: whether wait_for on
process.communicate expired, and otherwise the return code and streams of
the probe container. -/
structure ProbeEnv where
  timedOut : Bool
  exitCode : Int
  stdout : String
  stderr : String
deriving Repr

/-- Observable state of the probe subprocess after the check returns:
it was spawned; it has exited when communicate completed; the code never
invokes kill on it, on any branch. -/
structure ProbeEffects where
  spawned : Bool
  exited : Bool
  killed : Bool
deriving DecidableEq, Repr

/-- The containment marker the probe must print. -/
def CVE_2022_0492_EXPECTED_OUTPUT : String :=
  "Contained: cannot escape via CVE-2022-0492"

/-- Command.is_system_safe_for_cve_2022_0492 from run_executor.py: on
wait_for expiry the check only logs and returns False, without killing the
probe subprocess, which therefore keeps running; otherwise the check
requires a zero return code and the containment marker in stdout. -/
def is_system_safe_for_cve_2022_0492 (env : ProbeEnv) : Bool × ProbeEffects :=
  if env.timedOut then
    (false, { spawned := true, exited := false, killed := false })
  else if env.exitCode ≠ 0 then
    (false, { spawned := true, exited := true, killed := false })
  else if containsSubstring env.stdout CVE_2022_0492_EXPECTED_OUTPUT = false then
    (false, { spawned := true, exited := true, killed := false })
  else
    (true, { spawned := true, exited := true, killed := false })

/-- Python truthiness of an optional string field: None and the empty
string are falsy. -/
def truthy_str : Option String → Bool
  | none => false
  | some s => !s.isEmpty

/-- JobRequest.validate from the miner layer_utils.py root_validator:
at least one of docker_image_name and raw_script must be truthy, else the
model raises ValueError and cannot be constructed. -/
def JobRequest_validate (docker_image_name raw_script : Option String) :
    Except String Unit :=
  if truthy_str docker_image_name || truthy_str raw_script then Except.ok ()
  else Except.error "Expected at least one of docker_image_name or raw_script"

/-- ExecutorInterfaceMixin.miner_job_request from layer_utils.py:
validate_event tries to construct the JobRequest model, logging and
returning None when validation raises, and _miner_job_request (which
forwards the payload towards the executor that would launch a container
for it) runs only for a successfully validated payload. -/
def miner_job_request (docker_image_name raw_script : Option String) : Bool :=
  match JobRequest_validate docker_image_name raw_script with
  | Except.ok _ => true
  | Except.error _ => false

/-- Concrete initial job descriptor used by witnesses. -/
def sampleInitial : V0InitialJobRequest :=
  { job_uuid := "job-A", base_docker_image_name := none, timeout_seconds := some 5 }

/-- Concrete inline volume used by witnesses. -/
def sampleVolume : Volume :=
  { volume_type := "inline", contents := "" }

/-- Concrete job payload without an output upload. -/
def sampleJob : V0JobRequest :=
  { job_uuid := "job-A", docker_image_name := some "alpine", raw_script := none,
    docker_run_options_preset := "none", docker_run_cmd := ["true"],
    volume := sampleVolume, output_upload := none }

/-- Concrete job payload that requests an output upload. -/
def uploadJob : V0JobRequest :=
  { sampleJob with output_upload := some { url := "http://upload.example" } }

/-- Concrete run environment: staging succeeded, the container exited 0
within the timeout, no specs, no upload failure. -/
def okRunEnv : RunEnv :=
  { stagingResult := Except.ok (), timedOut := false, exitCode := 0,
    runStdout := "", runStderr := "", specs := none, uploadFailure := none }

/-- Concrete run environment in which the container exited 0 but the
requested output upload raised OutputUploadFailed. -/
def uploadFailEnv : RunEnv :=
  { okRunEnv with runStdout := "hi", runStderr := "err",
                  uploadFailure := some "Uploading output failed" }

/-- Concrete run environment in which the container run timed out, with
the streams that were readable after the kill. -/
def timeoutRunEnv : RunEnv :=
  { okRunEnv with timedOut := true, exitCode := 7,
                  runStdout := "out so far", runStderr := "err so far" }

/-- Concrete run environment with a nonzero exit code. -/
def nonzeroRunEnv : RunEnv :=
  { okRunEnv with exitCode := 3, runStdout := "boom", runStderr := "trace" }

/-- Concrete volume whose tag is neither inline nor zip_url. -/
def unknownVolume : Volume :=
  { volume_type := "weird", contents := "" }

/-- Concrete staging environment with nothing downloaded and no local
extraction fault. -/
def emptyUnpackEnv : UnpackEnv :=
  { cap := 0, content_length := none, chunks := [],
    inlineExtractRaises := false, zipExtractRaises := false }

/-- Concrete run environment whose staging result is what unpack_volume
produces for the unknown volume type. -/
def unknownVolumeRunEnv : RunEnv :=
  { okRunEnv with
      stagingResult := unpack_volume false (unpack_volume_inner unknownVolume emptyUnpackEnv) }

/-- Concrete probe environment in which the CVE probe timed out. -/
def probeTimeoutEnv : ProbeEnv :=
  { timedOut := true, exitCode := 0, stdout := "", stderr := "" }

/-- Helper: one handshake step preserves a filled initial gate and the
recorded job id. -/
theorem handshake_step_preserves_initial (s : HandshakeState) (m : HandshakeMsg)
    (m0 : V0InitialJobRequest) (h : s.initial_msg = some m0) :
    (handle_message s m).1.initial_msg = some m0 ∧
    (handle_message s m).1.job_uuid = s.job_uuid := by
  cases m with
  | initial m => simp [handle_message, handle_initial_job_request, h]
  | payload m =>
    simp only [handle_message, handle_job_request, h]
    split
    · exact ⟨h, rfl⟩
    · split
      · exact ⟨h, rfl⟩
      · exact ⟨rfl, rfl⟩

/-- Helper: one handshake step preserves a filled payload gate. -/
theorem handshake_step_preserves_payload (s : HandshakeState) (m : HandshakeMsg)
    (p0 : V0JobRequest) (h : s.full_payload = some p0) :
    (handle_message s m).1.full_payload = some p0 := by
  cases m with
  | initial m =>
    simp only [handle_message, handle_initial_job_request]
    split
    · exact h
    · exact h
  | payload m =>
    by_cases hinit : s.initial_msg.isSome = false
    · simp [handle_message, handle_job_request, hinit, h]
    · simp [handle_message, handle_job_request, hinit, h]

/-- Helper: a whole session preserves a filled initial gate and job id. -/
theorem runSession_preserves_initial (msgs : List HandshakeMsg) :
    ∀ (s : HandshakeState) (m0 : V0InitialJobRequest), s.initial_msg = some m0 →
    (runSession s msgs).initial_msg = some m0 ∧ (runSession s msgs).job_uuid = s.job_uuid := by
  induction msgs with
  | nil => intro s m0 h; exact ⟨h, rfl⟩
  | cons m rest ih =>
    intro s m0 h
    have hstep := handshake_step_preserves_initial s m m0 h
    have hrec := ih (handle_message s m).1 m0 hstep.1
    exact ⟨hrec.1, hrec.2.trans hstep.2⟩

/-- Helper: a whole session preserves a filled payload gate. -/
theorem runSession_preserves_payload (msgs : List HandshakeMsg) :
    ∀ (s : HandshakeState) (p0 : V0JobRequest), s.full_payload = some p0 →
    (runSession s msgs).full_payload = some p0 := by
  induction msgs with
  | nil => intro s p0 h; exact h
  | cons m rest ih =>
    intro s p0 h
    exact ih (handle_message s m).1 p0 (handshake_step_preserves_payload s m p0 h)

/-- C1: for every sequence of handshake messages on one session, a second
InitialJobDescriptor or a second JobPayload never overwrites the value
already stored in the corresponding gate (the job id and the slot contents
are left unchanged, and they stay unchanged through the rest of the
session) and always causes a GenericError to be emitted to the peer. -/
theorem duplicate_handshake_never_overwrites_and_reports :
    (∀ (s : HandshakeState) (m m0 : V0InitialJobRequest), s.initial_msg = some m0 →
       (handle_message s (HandshakeMsg.initial m)).1 = s ∧
       ∃ d, (handle_message s (HandshakeMsg.initial m)).2 = [SentMsg.genericError d]) ∧
    (∀ (s : HandshakeState) (m p0 : V0JobRequest), s.full_payload = some p0 →
       (handle_message s (HandshakeMsg.payload m)).1 = s ∧
       ∃ d, (handle_message s (HandshakeMsg.payload m)).2 = [SentMsg.genericError d]) ∧
    (∀ (s : HandshakeState) (msgs : List HandshakeMsg) (m0 : V0InitialJobRequest),
       s.initial_msg = some m0 →
       (runSession s msgs).initial_msg = some m0 ∧
       (runSession s msgs).job_uuid = s.job_uuid) ∧
    (∀ (s : HandshakeState) (msgs : List HandshakeMsg) (p0 : V0JobRequest),
       s.full_payload = some p0 → (runSession s msgs).full_payload = some p0) := by
  refine ⟨?_, ?_, ?_, ?_⟩
  · intro s m m0 h
    constructor
    · simp [handle_message, handle_initial_job_request, h]
    · exact ⟨"Received duplicate initial job request",
        by simp [handle_message, handle_initial_job_request, h]⟩
  · intro s m p0 h
    by_cases hinit : s.initial_msg.isSome
    · constructor
      · simp [handle_message, handle_job_request, hinit, h]
      · exact ⟨"Received duplicate full job payload request",
          by simp [handle_message, handle_job_request, hinit, h]⟩
    · constructor
      · simp [handle_message, handle_job_request, Option.not_isSome_iff_eq_none.mp hinit]
      · exact ⟨"Received job request before an initial job request", by
          simp [handle_message, handle_job_request, Option.not_isSome_iff_eq_none.mp hinit]⟩
  · intro s msgs m0 h
    exact runSession_preserves_initial msgs s m0 h
  · intro s msgs p0 h
    exact runSession_preserves_payload msgs s p0 h

/-- Witness for C1: a session that already stored an initial descriptor
leaves it untouched on a duplicate and emits exactly one GenericError. -/
theorem duplicate_handshake_never_overwrites_and_reports_witness :
    (handle_message
        { job_uuid := some "job-A", initial_msg := some sampleInitial, full_payload := none }
        (HandshakeMsg.initial sampleInitial)).1 =
      { job_uuid := some "job-A", initial_msg := some sampleInitial, full_payload := none } ∧
    ∃ d, (handle_message
        { job_uuid := some "job-A", initial_msg := some sampleInitial, full_payload := none }
        (HandshakeMsg.initial sampleInitial)).2 = [SentMsg.genericError d] :=
  duplicate_handshake_never_overwrites_and_reports.1
    { job_uuid := some "job-A", initial_msg := some sampleInitial, full_payload := none }
    sampleInitial sampleInitial rfl

/-- C10: every JobResult produced by runJob satisfies the invariant that
success implies exit status 0 and no timeout, and that timeout implies a
null exit status. -/
theorem runJob_result_invariant (jr : V0JobRequest) (env : RunEnv) :
    ((runJob jr env).1.success = true →
      (runJob jr env).1.exit_status = some 0 ∧ (runJob jr env).1.timeout = false) ∧
    ((runJob jr env).1.timeout = true → (runJob jr env).1.exit_status = none) := by
  unfold runJob
  cases hp : preset_to_docker_run_args jr.docker_run_options_preset with
  | error ex => simp
  | ok opts =>
    cases hs : env.stagingResult with
    | error ex => simp
    | ok u =>
      cases hu : jr.output_upload with
      | none =>
        cases ht : env.timedOut <;> simp [ht]
      | some up =>
        cases hf : env.uploadFailure with
        | none => cases ht : env.timedOut <;> simp [ht]
        | some d => cases ht : env.timedOut <;> simp [ht]

/-- Witness for C10: the invariant holds at a concrete successful run. -/
theorem runJob_result_invariant_witness :
    (runJob sampleJob okRunEnv).1.exit_status = some 0 ∧
    (runJob sampleJob okRunEnv).1.timeout = false :=
  (runJob_result_invariant sampleJob okRunEnv).1 (by decide)

/-- C2: a job whose container run exceeds the declared timeout bound has
its process killed, yields a JobResult with timeout true and null exit
status (hence not success), persists whatever partial streams were
readable into the output files, and the executor loop reports it to the
peer as a Failed message with timeout true and null exit status. -/
theorem timeout_yields_failed_kill_and_capture (jr : V0JobRequest) (env : RunEnv)
    (opts : List String) (c : Except String Unit)
    (hp : preset_to_docker_run_args jr.docker_run_options_preset = Except.ok opts)
    (hs : env.stagingResult = Except.ok ())
    (ht : env.timedOut = true) :
    (runJob jr env).2.killed = true ∧
    (runJob jr env).1.timeout = true ∧
    (runJob jr env).1.exit_status = none ∧
    (runJob jr env).1.success = false ∧
    (runJob jr env).2.stdoutFile = some env.runStdout ∧
    (runJob jr env).2.stderrFile = some env.runStderr ∧
    LoopAction.sendFailed none true (runJob jr env).1.stdout (runJob jr env).1.stderr
      ∈ executorLoop (LoopBranch.completed (runJob jr env).1) c := by
  have hmain : (runJob jr env).2.killed = true ∧
      (runJob jr env).1.timeout = true ∧
      (runJob jr env).1.exit_status = none ∧
      (runJob jr env).1.success = false ∧
      (runJob jr env).2.stdoutFile = some env.runStdout ∧
      (runJob jr env).2.stderrFile = some env.runStderr := by
    unfold runJob
    rw [hp, hs]
    cases hu : jr.output_upload with
    | none => simp [ht]
    | some up =>
      cases hf : env.uploadFailure with
      | none => simp [ht]
      | some d => simp [ht]
  refine ⟨hmain.1, hmain.2.1, hmain.2.2.1, hmain.2.2.2.1, hmain.2.2.2.2.1,
    hmain.2.2.2.2.2, ?_⟩
  have hr : LoopAction.sendFailed (runJob jr env).1.exit_status (runJob jr env).1.timeout
      (runJob jr env).1.stdout (runJob jr env).1.stderr
      ∈ executorLoop (LoopBranch.completed (runJob jr env).1) c := by
    simp [executorLoop, hmain.2.2.2.1]
  rw [hmain.2.2.1, hmain.2.1] at hr
  exact hr

/-- Witness for C2: a concrete timed-out run is killed and reported as a
timed-out Failed outcome with its partial streams captured. -/
theorem timeout_yields_failed_kill_and_capture_witness :
    (runJob sampleJob timeoutRunEnv).2.killed = true ∧
    (runJob sampleJob timeoutRunEnv).1.timeout = true ∧
    (runJob sampleJob timeoutRunEnv).1.exit_status = none ∧
    (runJob sampleJob timeoutRunEnv).1.success = false ∧
    (runJob sampleJob timeoutRunEnv).2.stdoutFile = some timeoutRunEnv.runStdout ∧
    (runJob sampleJob timeoutRunEnv).2.stderrFile = some timeoutRunEnv.runStderr ∧
    LoopAction.sendFailed none true (runJob sampleJob timeoutRunEnv).1.stdout
      (runJob sampleJob timeoutRunEnv).1.stderr
      ∈ executorLoop (LoopBranch.completed (runJob sampleJob timeoutRunEnv).1) (Except.ok ()) :=
  timeout_yields_failed_kill_and_capture sampleJob timeoutRunEnv [] (Except.ok ())
    rfl rfl rfl

/-- Counterexample for C6: a job whose container exits 0 within the
timeout but whose requested output upload fails is reported as Failed
(carrying exit status 0), not Finished. -/
theorem exit_zero_upload_failure_reported_failed :
    uploadFailEnv.exitCode = 0 ∧ uploadFailEnv.timedOut = false ∧
    (runJob uploadJob uploadFailEnv).1.success = false ∧
    (runJob uploadJob uploadFailEnv).1.exit_status = some 0 ∧
    executorLoop (LoopBranch.completed (runJob uploadJob uploadFailEnv).1) (Except.ok ()) =
      [LoopAction.createWorkspace, LoopAction.sendReady,
       LoopAction.sendFailed (some 0) false "Uploading output failed" "",
       LoopAction.clean] := by
  decide

/-- C6 as amended: within the timeout, an exit code of 0 yields a Finished
message provided any requested output upload succeeds (a failing upload
downgrades the job to Failed), and any nonzero exit code yields a Failed
message carrying that exact exit code. -/
theorem exit_code_determines_message (jr : V0JobRequest) (env : RunEnv)
    (opts : List String) (c : Except String Unit)
    (hp : preset_to_docker_run_args jr.docker_run_options_preset = Except.ok opts)
    (hs : env.stagingResult = Except.ok ())
    (ht : env.timedOut = false) :
    (env.exitCode = 0 → (jr.output_upload = none ∨ env.uploadFailure = none) →
      (runJob jr env).1.success = true ∧
      LoopAction.sendFinished (runJob jr env).1.stdout (runJob jr env).1.stderr
        ∈ executorLoop (LoopBranch.completed (runJob jr env).1) c) ∧
    (env.exitCode ≠ 0 →
      (runJob jr env).1.success = false ∧
      (runJob jr env).1.exit_status = some env.exitCode ∧
      LoopAction.sendFailed (some env.exitCode) false (runJob jr env).1.stdout
          (runJob jr env).1.stderr
        ∈ executorLoop (LoopBranch.completed (runJob jr env).1) c) := by
  constructor
  · intro hz hok
    have hsucc : (runJob jr env).1.success = true := by
      unfold runJob
      rw [hp, hs]
      rcases hok with hok | hok
      · simp [hok, ht, hz]
      · cases hu : jr.output_upload with
        | none => simp [ht, hz]
        | some up => simp [hu, hok, ht, hz]
    refine ⟨hsucc, ?_⟩
    simp [executorLoop, hsucc, sendFinishedActions]
  · intro hnz
    have hfail : (runJob jr env).1.success = false ∧
        (runJob jr env).1.exit_status = some env.exitCode := by
      unfold runJob
      rw [hp, hs]
      cases hu : jr.output_upload with
      | none => simp [ht, hnz]
      | some up =>
        cases hf : env.uploadFailure with
        | none => simp [ht, hnz]
        | some d => simp [ht]
    refine ⟨hfail.1, hfail.2, ?_⟩
    have hr : LoopAction.sendFailed (runJob jr env).1.exit_status (runJob jr env).1.timeout
        (runJob jr env).1.stdout (runJob jr env).1.stderr
        ∈ executorLoop (LoopBranch.completed (runJob jr env).1) c := by
      simp [executorLoop, hfail.1]
    have htmo : (runJob jr env).1.timeout = false := by
      unfold runJob
      rw [hp, hs]
      cases hu : jr.output_upload with
      | none => simp [ht]
      | some up =>
        cases hf : env.uploadFailure with
        | none => simp [ht]
        | some d => simp [ht]
    rw [hfail.2, htmo] at hr
    exact hr

/-- Witness for the amended C6: a concrete exit-0 run without an upload is
reported Finished, and a concrete exit-3 run is reported Failed with exit
status 3. -/
theorem exit_code_determines_message_witness :
    ((runJob sampleJob okRunEnv).1.success = true ∧
      LoopAction.sendFinished (runJob sampleJob okRunEnv).1.stdout
          (runJob sampleJob okRunEnv).1.stderr
        ∈ executorLoop (LoopBranch.completed (runJob sampleJob okRunEnv).1) (Except.ok ())) ∧
    ((runJob sampleJob nonzeroRunEnv).1.success = false ∧
      (runJob sampleJob nonzeroRunEnv).1.exit_status = some nonzeroRunEnv.exitCode ∧
      LoopAction.sendFailed (some nonzeroRunEnv.exitCode) false
          (runJob sampleJob nonzeroRunEnv).1.stdout (runJob sampleJob nonzeroRunEnv).1.stderr
        ∈ executorLoop (LoopBranch.completed (runJob sampleJob nonzeroRunEnv).1) (Except.ok ())) :=
  ⟨(exit_code_determines_message sampleJob okRunEnv [] (Except.ok ()) rfl rfl rfl).1
      rfl (Or.inl rfl),
   (exit_code_determines_message sampleJob nonzeroRunEnv [] (Except.ok ()) rfl rfl rfl).2
      (by decide)⟩

/-- Counterexample for C9: when a requested output upload fails, the copy
reported in the response message is the upload error description, not the
captured stream, even though the stream is within the size threshold (the
full stream is still persisted to the output file). -/
theorem reported_copy_differs_from_stream_counterexample :
    uploadFailEnv.runStdout = "hi" ∧
    uploadFailEnv.runStdout.length ≤ MAX_RESULT_SIZE_IN_RESPONSE ∧
    (runJob uploadJob uploadFailEnv).2.stdoutFile = some "hi" ∧
    (runJob uploadJob uploadFailEnv).1.stdout = "Uploading output failed" ∧
    (runJob uploadJob uploadFailEnv).1.stdout ≠ uploadFailEnv.runStdout := by
  decide

/-- C9 as amended: the full untruncated streams are always persisted to
the output-directory files; unless a requested output upload fails (in
which case the message carries the upload error as stdout and an empty
stderr), the copies in the response equal truncate of the streams; and
truncate is the identity up to the threshold and otherwise a fixed-size
head, the elision marker, and a fixed-size tail of the stream. -/
theorem streams_persisted_full_and_truncated_in_response (jr : V0JobRequest) (env : RunEnv)
    (opts : List String)
    (hp : preset_to_docker_run_args jr.docker_run_options_preset = Except.ok opts)
    (hs : env.stagingResult = Except.ok ()) :
    (runJob jr env).2.stdoutFile = some env.runStdout ∧
    (runJob jr env).2.stderrFile = some env.runStderr ∧
    ((jr.output_upload = none ∨ env.uploadFailure = none) →
      (runJob jr env).1.stdout = truncate env.runStdout ∧
      (runJob jr env).1.stderr = truncate env.runStderr) ∧
    (∀ v : String,
      (v.length ≤ MAX_RESULT_SIZE_IN_RESPONSE → truncate v = v) ∧
      (v.length > MAX_RESULT_SIZE_IN_RESPONSE →
        truncate v = v.take TRUNCATED_RESPONSE_HEAD_LEN ++ " ... " ++
          pySliceLast v TRUNCATED_RESPONSE_TAIL_LEN)) := by
  refine ⟨?_, ?_, ?_, ?_⟩
  · unfold runJob
    rw [hp, hs]
    cases hu : jr.output_upload with
    | none => simp
    | some up => cases hf : env.uploadFailure <;> simp
  · unfold runJob
    rw [hp, hs]
    cases hu : jr.output_upload with
    | none => simp
    | some up => cases hf : env.uploadFailure <;> simp
  · intro hok
    unfold runJob
    rw [hp, hs]
    rcases hok with hok | hok
    · simp [hok]
    · cases hu : jr.output_upload with
      | none => simp
      | some up => simp [hok]
  · intro v
    constructor
    · intro hle
      simp [truncate, Nat.not_lt.mpr hle]
    · intro hgt
      simp [truncate, hgt]

/-- Witness for the amended C9: a concrete run persists its streams in
full and reports their truncations. -/
theorem streams_persisted_full_and_truncated_in_response_witness :
    (runJob sampleJob nonzeroRunEnv).2.stdoutFile = some nonzeroRunEnv.runStdout ∧
    (runJob sampleJob nonzeroRunEnv).2.stderrFile = some nonzeroRunEnv.runStderr ∧
    (runJob sampleJob nonzeroRunEnv).1.stdout = truncate nonzeroRunEnv.runStdout ∧
    (runJob sampleJob nonzeroRunEnv).1.stderr = truncate nonzeroRunEnv.runStderr := by
  have h := streams_persisted_full_and_truncated_in_response sampleJob nonzeroRunEnv [] rfl rfl
  have hc := h.2.2.1 (Or.inl rfl)
  exact ⟨h.1, h.2.1, hc.1, hc.2⟩

/-- C3: on every terminal branch that belongs to a job (success, failure,
timeout, prepare failure, unhandled fault — every branch except the CVE
probe refusal, which precedes workspace creation), cleanup runs exactly
once; on every branch cleanup runs exactly as often as a workspace is
created; and a failing cleanup sends nothing to the peer: the messages
sent are the same whether cleanup succeeds or fails, and no message
follows the cleanup action. -/
theorem cleanup_exactly_once_and_failure_isolated (b : LoopBranch)
    (c : Except String Unit) :
    (b ≠ LoopBranch.cveUnsafe → (executorLoop b c).countP isClean = 1) ∧
    (executorLoop b c).countP isClean = (executorLoop b c).countP isCreate ∧
    sentMessages (executorLoop b c) = sentMessages (executorLoop b (Except.ok ())) ∧
    sendsAfterClean (executorLoop b c) = 0 := by
  cases b with
  | cveUnsafe =>
    cases c <;> simp [executorLoop, sentMessages, sendsAfterClean, isClean, isCreate, isSend]
  | prepareJobError =>
    cases c <;>
      simp [executorLoop, cleanTail, sentMessages, sendsAfterClean, isClean, isCreate, isSend]
  | prepareFault =>
    cases c <;>
      simp [executorLoop, cleanTail, sentMessages, sendsAfterClean, isClean, isCreate, isSend]
  | runFault =>
    cases c <;>
      simp [executorLoop, cleanTail, sentMessages, sendsAfterClean, isClean, isCreate, isSend]
  | completed r =>
    cases hsu : r.success <;> cases hsp : r.specs <;> cases c <;>
      simp [executorLoop, cleanTail, sentMessages, sendsAfterClean, isClean, isCreate, isSend,
        sendFinishedActions, hsu, hsp]

/-- Witness for C3: on the concrete prepare-failure branch with a failing
cleanup, cleanup runs once and the peer messages equal those of a
successful cleanup. -/
theorem cleanup_exactly_once_and_failure_isolated_witness :
    (executorLoop LoopBranch.prepareJobError (Except.error "rmdir failed")).countP isClean
      = 1 ∧
    sentMessages (executorLoop LoopBranch.prepareJobError (Except.error "rmdir failed")) =
      sentMessages (executorLoop LoopBranch.prepareJobError (Except.ok ())) ∧
    sendsAfterClean (executorLoop LoopBranch.prepareJobError (Except.error "rmdir failed"))
      = 0 := by
  have h := cleanup_exactly_once_and_failure_isolated LoopBranch.prepareJobError
    (Except.error "rmdir failed")
  exact ⟨h.1 (by decide), h.2.2.1, h.2.2.2⟩

/-- Helper: prefix sums of a chunk stream unfold over cons. -/
theorem sumTake_cons (ch : Nat) (rest : List Nat) (n : Nat) :
    sumTake (ch :: rest) (n + 1) = ch + sumTake rest n := by
  simp [sumTake]

/-- Helper: when the cap is positive, the running total is still within
the cap and the remaining body exceeds it, the aiter_bytes loop raises the
too-large JobError at the first chunk that crosses the cap: it consumes at
most that chunk, every byte it wrote kept the total within the cap, and
the totals before and after the consumed chunks bracket the cap. -/
theorem aiter_bytes_loop_overflow_spec (cap : Int) :
    ∀ (chunks : List Nat) (acc : Nat),
      0 < cap → ((acc : Int) ≤ cap) → (cap < ((acc + chunks.sum : Nat) : Int)) →
      (aiter_bytes_loop cap acc chunks).result =
          Except.error { description := "Input volume too large" } ∧
      1 ≤ (aiter_bytes_loop cap acc chunks).chunksRead ∧
      (aiter_bytes_loop cap acc chunks).chunksRead ≤ chunks.length ∧
      cap < ((acc + sumTake chunks (aiter_bytes_loop cap acc chunks).chunksRead : Nat) : Int) ∧
      ((acc + sumTake chunks ((aiter_bytes_loop cap acc chunks).chunksRead - 1) : Nat) : Int)
        ≤ cap ∧
      (aiter_bytes_loop cap acc chunks).bytesWritten =
        sumTake chunks ((aiter_bytes_loop cap acc chunks).chunksRead - 1) := by
  intro chunks
  induction chunks with
  | nil =>
    intro acc hcap hacc hover
    exfalso
    simp only [List.sum_nil, Nat.add_zero] at hover
    omega
  | cons ch rest ih =>
    intro acc hcap hacc hover
    have hunfold : aiter_bytes_loop cap acc (ch :: rest) =
        if 0 < cap ∧ cap < ((acc + ch : Nat) : Int) then
          { result := Except.error { description := "Input volume too large" },
            chunksRead := 1, bytesWritten := 0 }
        else
          { result := (aiter_bytes_loop cap (acc + ch) rest).result,
            chunksRead := (aiter_bytes_loop cap (acc + ch) rest).chunksRead + 1,
            bytesWritten := (aiter_bytes_loop cap (acc + ch) rest).bytesWritten + ch } := rfl
    by_cases hc : 0 < cap ∧ cap < ((acc + ch : Nat) : Int)
    · rw [hunfold, if_pos hc]
      refine ⟨rfl, le_refl 1, by simp, ?_, ?_, ?_⟩
      · simpa [sumTake_cons] using hc.2
      · simpa [sumTake] using hacc
      · simp [sumTake]
    · have hle : ((acc + ch : Nat) : Int) ≤ cap := by
        rcases not_and_or.mp hc with h | h
        · exact absurd hcap h
        · exact not_lt.mp h
      have hover2 : cap < (((acc + ch) + rest.sum : Nat) : Int) := by
        have : acc + (ch :: rest).sum = (acc + ch) + rest.sum := by
          simp [List.sum_cons]
          omega
        rw [this] at hover
        exact hover
      obtain ⟨hres, hone, hlen, hcross, hbefore, hwritten⟩ :=
        ih (acc + ch) hcap hle hover2
      obtain ⟨m, hm⟩ : ∃ m, (aiter_bytes_loop cap (acc + ch) rest).chunksRead = m + 1 :=
        ⟨(aiter_bytes_loop cap (acc + ch) rest).chunksRead - 1, by omega⟩
      rw [hunfold, if_neg hc]
      refine ⟨hres, by simp, ?_, ?_, ?_, ?_⟩
      · simp only [List.length_cons]
        omega
      · rw [hm, sumTake_cons]
        rw [hm] at hcross
        push_cast at hcross ⊢
        omega
      · simp only [Nat.add_sub_cancel]
        rw [hm, sumTake_cons]
        rw [hm] at hbefore
        simp only [Nat.add_sub_cancel] at hbefore
        push_cast at hbefore ⊢
        omega
      · simp only [Nat.add_sub_cancel]
        rw [hm, sumTake_cons]
        rw [hm] at hwritten
        simp only [Nat.add_sub_cancel] at hwritten
        omega

/-- C4: for a zip_url volume, a declared Content-Length beyond the
positive cap makes the download fail before any body chunk is read or any
byte written; with no Content-Length and a body beyond the cap, the
download fails at the first chunk that takes the cumulative received bytes
past the cap — the totals before and after the consumed chunks bracket the
cap, no later chunk is read, and only the bytes received while still
within the cap were written. -/
theorem zip_url_size_cap_enforced (cap : Int) (n : Nat) (chunks : List Nat) :
    (0 < cap → cap < (n : Int) →
      download_zip_url cap (some n) chunks =
        { result := Except.error { description := "Input volume too large" },
          chunksRead := 0, bytesWritten := 0 }) ∧
    (0 < cap → cap < ((chunks.sum : Nat) : Int) →
      (download_zip_url cap none chunks).result =
          Except.error { description := "Input volume too large" } ∧
      1 ≤ (download_zip_url cap none chunks).chunksRead ∧
      (download_zip_url cap none chunks).chunksRead ≤ chunks.length ∧
      cap < ((sumTake chunks (download_zip_url cap none chunks).chunksRead : Nat) : Int) ∧
      ((sumTake chunks ((download_zip_url cap none chunks).chunksRead - 1) : Nat) : Int)
        ≤ cap ∧
      (download_zip_url cap none chunks).bytesWritten =
        sumTake chunks ((download_zip_url cap none chunks).chunksRead - 1)) := by
  constructor
  · intro hcap hlen
    simp [download_zip_url, hcap, hlen]
  · intro hcap hsum
    have h := aiter_bytes_loop_overflow_spec cap chunks 0 hcap
      (by exact_mod_cast Int.le_of_lt hcap) (by simpa using hsum)
    simpa [download_zip_url] using h

/-- Witness for C4: with cap 5, a declared length 10 fails with nothing
read, and a headerless stream of chunks 3 and 4 fails at the second chunk
with only the first chunk written. -/
theorem zip_url_size_cap_enforced_witness :
    (download_zip_url 5 (some 10) [3, 4] =
      { result := Except.error { description := "Input volume too large" },
        chunksRead := 0, bytesWritten := 0 }) ∧
    ((download_zip_url 5 none [3, 4]).result =
        Except.error { description := "Input volume too large" } ∧
      (download_zip_url 5 none [3, 4]).chunksRead ≤ 2 ∧
      (5 : Int) < ((sumTake [3, 4] (download_zip_url 5 none [3, 4]).chunksRead : Nat) : Int) ∧
      (download_zip_url 5 none [3, 4]).bytesWritten =
        sumTake [3, 4] ((download_zip_url 5 none [3, 4]).chunksRead - 1)) := by
  have h1 := (zip_url_size_cap_enforced 5 10 [3, 4]).1 (by decide) (by decide)
  have h2 := (zip_url_size_cap_enforced 5 10 [3, 4]).2 (by decide) (by decide)
  exact ⟨h1, h2.1, h2.2.2.1, h2.2.2.2.1, h2.2.2.2.2.2⟩

/-- Counterexample for C5: for a volume whose tag is neither inline nor
zip_url, the inner stager does raise NotImplementedError, but unpack_volume
catches it with the generic except clause and wraps it into a recoverable
JobError, so run_job returns an ordinary failed JobResult and the loop
reports an ordinary Failed message — not a hard implementation fault. -/
theorem unknown_volume_type_yields_recoverable_failure :
    unpack_volume_inner unknownVolume emptyUnpackEnv =
      Except.error (StagingExc.notImplementedExc "Unsupported volume_type: weird") ∧
    unpack_volume false (unpack_volume_inner unknownVolume emptyUnpackEnv) =
      Except.error { description := "Unknown error happened while downloading input volume" } ∧
    (runJob sampleJob unknownVolumeRunEnv).1 =
      { success := false, exit_status := none, timeout := false,
        stdout := "Unknown error happened while downloading input volume", stderr := "",
        specs := none } ∧
    LoopAction.sendFailed none false
        "Unknown error happened while downloading input volume" ""
      ∈ executorLoop (LoopBranch.completed (runJob sampleJob unknownVolumeRunEnv).1)
          (Except.ok ()) := by
  refine ⟨rfl, rfl, rfl, ?_⟩
  decide

/-- C5 as amended: an unknown volume_type raises NotImplementedError
inside _unpack_volume, but the broad exception handler of unpack_volume
converts it into the generic recoverable JobError, so staging produces a
recoverable job-level failure rather than propagating a hard
implementation fault. -/
theorem unknown_volume_type_wrapped_into_job_error (v : Volume) (env : UnpackEnv)
    (h1 : v.volume_type ≠ "inline") (h2 : v.volume_type ≠ "zip_url") :
    unpack_volume_inner v env =
      Except.error (StagingExc.notImplementedExc
        ("Unsupported volume_type: " ++ v.volume_type)) ∧
    unpack_volume false (unpack_volume_inner v env) =
      Except.error { description := "Unknown error happened while downloading input volume" } := by
  have hinner : unpack_volume_inner v env =
      Except.error (StagingExc.notImplementedExc
        ("Unsupported volume_type: " ++ v.volume_type)) := by
    simp [unpack_volume_inner, h1, h2]
  exact ⟨hinner, by rw [hinner]; simp [unpack_volume]⟩

/-- Witness for the amended C5 at the concrete unknown volume. -/
theorem unknown_volume_type_wrapped_into_job_error_witness :
    unpack_volume_inner unknownVolume emptyUnpackEnv =
      Except.error (StagingExc.notImplementedExc "Unsupported volume_type: weird") ∧
    unpack_volume false (unpack_volume_inner unknownVolume emptyUnpackEnv) =
      Except.error { description := "Unknown error happened while downloading input volume" } :=
  unknown_volume_type_wrapped_into_job_error unknownVolume emptyUnpackEnv
    (by decide) (by decide)

/-- C7: a JobPayload carrying neither a container image name nor an inline
raw script (both absent or empty, the Python falsy cases) fails the miner
root_validator, so validate_event cannot construct the model and
_miner_job_request never forwards the payload — no container is ever
launched for it. -/
theorem payload_without_image_or_script_rejected (img scr : Option String)
    (h1 : truthy_str img = false) (h2 : truthy_str scr = false) :
    JobRequest_validate img scr =
      Except.error "Expected at least one of docker_image_name or raw_script" ∧
    miner_job_request img scr = false := by
  constructor
  · simp [JobRequest_validate, h1, h2]
  · simp [miner_job_request, JobRequest_validate, h1, h2]

/-- Witness for C7 at the fully absent payload. -/
theorem payload_without_image_or_script_rejected_witness :
    JobRequest_validate none none =
      Except.error "Expected at least one of docker_image_name or raw_script" ∧
    miner_job_request none none = false :=
  payload_without_image_or_script_rejected none none rfl rfl

/-- Counterexample for C8: when the isolation-probe run exceeds its
timeout, the check merely logs and returns False; the probe subprocess was
spawned, has not exited, and is never killed — a subprocess is left
running after this timeout fires. -/
theorem probe_timeout_leaves_subprocess_running :
    probeTimeoutEnv.timedOut = true ∧
    (is_system_safe_for_cve_2022_0492 probeTimeoutEnv).1 = false ∧
    (is_system_safe_for_cve_2022_0492 probeTimeoutEnv).2 =
      { spawned := true, exited := false, killed := false } := by
  decide

/-- C8 as amended: the job-execution timeout does force-kill the container
subprocess, while the isolation-probe timeout only makes the check return
False without killing the probe subprocess. -/
theorem timeout_termination_behaviour (jr : V0JobRequest) (env : RunEnv)
    (opts : List String) (penv : ProbeEnv)
    (hp : preset_to_docker_run_args jr.docker_run_options_preset = Except.ok opts)
    (hs : env.stagingResult = Except.ok ())
    (ht : env.timedOut = true) (hpt : penv.timedOut = true) :
    (runJob jr env).2.killed = true ∧
    (is_system_safe_for_cve_2022_0492 penv).1 = false ∧
    (is_system_safe_for_cve_2022_0492 penv).2.killed = false ∧
    (is_system_safe_for_cve_2022_0492 penv).2.exited = false := by
  refine ⟨?_, ?_⟩
  · unfold runJob
    rw [hp, hs]
    cases hu : jr.output_upload with
    | none => simp [ht]
    | some up => cases hf : env.uploadFailure <;> simp [ht]
  · simp [is_system_safe_for_cve_2022_0492, hpt]

/-- Witness for the amended C8 at concrete timed-out environments. -/
theorem timeout_termination_behaviour_witness :
    (runJob sampleJob timeoutRunEnv).2.killed = true ∧
    (is_system_safe_for_cve_2022_0492 probeTimeoutEnv).1 = false ∧
    (is_system_safe_for_cve_2022_0492 probeTimeoutEnv).2.killed = false ∧
    (is_system_safe_for_cve_2022_0492 probeTimeoutEnv).2.exited = false :=
  timeout_termination_behaviour sampleJob timeoutRunEnv [] probeTimeoutEnv rfl rfl rfl rfl
